import Mathlib

/-!
# Verification of the FHIR validator wrapper (`FhirValidator` class)

Shallow embedding of the Node.js `FhirValidator` class from
`src/usage_example.js` (the HTTP-service wrapper): the artifact manager
(`getInstalledVersion`, `ensureValidator`, `downloadFile`), the process
supervisor (`start`/`stop`/`cleanup` state transitions), and the validation
client (`validate`, `validateBytes`, `validateObject`, `loadIG`,
`runTxTest`).

Effectful JavaScript is embedded as pure functions over explicit state:
filesystem contents, HTTP responses and process events are inputs; thrown
errors / rejected promises are `Except.error`; JavaScript `null`/`undefined`
string values are `Option String`, with JavaScript truthiness made explicit
where the code relies on it.
-/

namespace FhirValidatorModel

/-- JavaScript truthiness for a possibly-null/undefined string:
`null`, `undefined` and `""` are falsy. -/
def jsFalsyStr : Option String → Bool
  | none => true
  | some s => s == ""

/-- JavaScript `a || d` for a possibly-null/undefined string `a`
and a string default `d`. -/
def jsOrStr (a : Option String) (d : String) : String :=
  match a with
  | none => d
  | some s => if s == "" then d else s

/-- A JavaScript value that is a string, `null`, or `undefined` — the
three cases `getInstalledVersion` can produce, which the code's
`!== null` check distinguishes from each other. -/
inductive JsStr where
  | nullVal
  | undef
  | str (s : String)
  deriving Repr, DecidableEq

/-- Whether the value is an actual string (a recorded version). -/
def JsStr.isStr : JsStr → Bool
  | .str _ => true
  | _ => false

/-- JavaScript truthiness of such a value: `null`, `undefined` and `""`
are falsy. -/
def jsFalsy : JsStr → Bool
  | .nullVal => true
  | .undef => true
  | .str s => s == ""

/-- JavaScript `a || d` for such a value and a string default `d`. -/
def jsOr : JsStr → String → String
  | .nullVal, d => d
  | .undef, d => d
  | .str s, d => if s == "" then d else s

/-- JavaScript strict inequality `a !== null`; note `undefined !== null`
is true. -/
def strictNeqNull : JsStr → Bool
  | .nullVal => false
  | .undef => true
  | .str _ => true

/-- JavaScript strict inequality `a !== b` against a string `b`:
`null` and `undefined` are `!==` every string. -/
def strictNeqJs : JsStr → String → Bool
  | .nullVal, _ => true
  | .undef, _ => true
  | .str s, b => s != b

/-! ## Artifact manager: `getInstalledVersion` (usage_example.js:327-337) -/

/-- The parsed contents of the sidecar version file
(`JSON.parse(...)` result; `version` may be absent, i.e. `undefined`). -/
structure VersionInfo where
  version : Option String
  deriving Repr, DecidableEq

/-- The state of the sidecar version file on disk, as `getInstalledVersion`
can observe it: absent, present but unreadable (`readFileSync` throws),
present but not valid JSON (`JSON.parse` throws), or readable and parsed. -/
inductive SidecarFile where
  | missing
  | readError (msg : String)
  | parseError (msg : String)
  | parsed (info : VersionInfo)
  deriving Repr, DecidableEq

/-- The body of `getInstalledVersion`'s `try` block: `fs.existsSync`,
`fs.readFileSync` (may throw), `JSON.parse` (may throw), then
`return versionInfo.version` — which is `undefined`, not `null`, when the
parsed JSON has no `version` key; a missing file falls through to
`return null` without throwing. `.error` is a thrown exception. -/
def getInstalledVersionTry : SidecarFile → Except String JsStr
  | .missing => .ok .nullVal
  | .readError msg => .error msg
  | .parseError msg => .error msg
  | .parsed info =>
      .ok (match info.version with
           | none => .undef
           | some s => .str s)

/-- `getInstalledVersion()` (usage_example.js:327-337): the `try` body with
its `catch` block, which logs and falls through to `return null`. -/
def getInstalledVersion (f : SidecarFile) : JsStr :=
  match getInstalledVersionTry f with
  | .ok v => v
  | .error _ => .nullVal

/-! ## Artifact manager: `ensureValidator` (usage_example.js:449-502) -/

/-- A successful `getLatestRelease()` response (usage_example.js:266-321). -/
structure Release where
  version : String
  downloadUrl : String
  deriving Repr, DecidableEq

/-- What one `ensureValidator` call returned and did: the resolved
`{version, updated, downloaded}` value, whether `getLatestRelease` was
called, and the `(version, downloadUrl)` record passed to
`saveVersionInfo` when a download happened. -/
structure EnsureOutcome where
  version : JsStr
  updated : Bool
  downloaded : Bool
  queriedRemote : Bool
  savedRecord : Option (String × String)
  deriving Repr, DecidableEq

/-- `ensureValidator(options)` (usage_example.js:449-502), on the path where
`getLatestRelease` and `downloadFile` succeed when reached. Inputs:
the option flags, whether `fs.existsSync(validatorJarPath)` holds, the
sidecar state (read through `getInstalledVersion`), and the release the
remote index would report. -/
def ensureValidator (force skipUpdateCheck : Bool) (jarExists : Bool)
    (sidecar : SidecarFile) (latest : Release) : EnsureOutcome :=
  let installedVersion := getInstalledVersion sidecar
  if jarExists && skipUpdateCheck && !force then
    { version := .str (jsOr installedVersion "unknown")
      updated := false
      downloaded := false
      queriedRemote := false
      savedRecord := none }
  else
    let needsDownload := force || !jarExists || jsFalsy installedVersion
      || strictNeqJs installedVersion latest.version
    if !needsDownload then
      { version := installedVersion
        updated := false
        downloaded := false
        queriedRemote := true
        savedRecord := none }
    else
      { version := .str latest.version
        updated := strictNeqNull installedVersion
          && strictNeqJs installedVersion latest.version
        downloaded := true
        queriedRemote := true
        savedRecord := some (latest.version, latest.downloadUrl) }

/-! ## Artifact manager: `downloadFile` (usage_example.js:359-440) -/

/-- How the body transfer of a 200 response ends. `finished`: the write
stream emits `finish` (all data piped). `errored`: the write stream
itself emits `error` - the handler at usage_example.js:422-428 unlinks
the temp file and rejects. `abortedTimeout` / `abortedNet`: the socket
times out (`req.setTimeout(300000, ...)`, usage_example.js:432-435) or
the connection drops while the body is still streaming — `req.destroy()`
plus reject fires, and because `res.pipe(fileStream)` does not propagate
a source abort to the destination stream, the write stream never emits
`error` and the partial temp file is left on disk. -/
inductive StreamOutcome where
  | finished
  | errored (msg : String)
  | abortedTimeout
  | abortedNet (msg : String)
  deriving Repr, DecidableEq

/-- The server's answer to one GET issued by `downloadWithRedirects`:
a redirect (status 300-399 with a `location` header), a plain response
with a status code and a stream outcome for its body, or a
request-level network error / timeout. -/
inductive FetchStep where
  | redirect (location : String)
  | response (status : Nat) (stream : StreamOutcome)
  | netError (msg : String)
  | reqTimeout
  deriving Repr, DecidableEq

/-- How one `downloadFile` promise settles. -/
inductive DlResult where
  | ok
  | errTooManyRedirects
  | errStatus (status : Nat)
  | errStream (msg : String)
  | errNet (msg : String)
  | errTimeout
  deriving Repr, DecidableEq

/-- The settled promise plus the filesystem effect at the two paths the
function touches: whether a file was left at `destPath` by this call
(the rename target) and whether the temp sibling `destPath + '.download'`
was left behind. -/
structure DlOutcome where
  result : DlResult
  finalWritten : Bool
  tempLeft : Bool
  deriving Repr, DecidableEq

/-- `downloadWithRedirects(url, redirectCount)` inside `downloadFile`
(usage_example.js:361-436). `fetch n` is the server's answer to the
`n`-th request. The entry guard rejects once `redirectCount > 5`;
a redirect response recurses with `redirectCount + 1`; a non-200
non-redirect status rejects; a 200 streams to the temp file, renaming it
to `destPath` on `finish`, unlinking it on a write-stream `error`, and —
when the socket times out or drops mid-body — rejecting with the temp
file left behind, since the pipe never errors the write stream. -/
def downloadWithRedirects (fetch : Nat → FetchStep) (redirectCount : Nat) :
    DlOutcome :=
  if redirectCount > 5 then
    { result := .errTooManyRedirects, finalWritten := false, tempLeft := false }
  else
    match fetch redirectCount with
    | .redirect _ => downloadWithRedirects fetch (redirectCount + 1)
    | .netError msg =>
        { result := .errNet msg, finalWritten := false, tempLeft := false }
    | .reqTimeout =>
        { result := .errTimeout, finalWritten := false, tempLeft := false }
    | .response status stream =>
        if status ≠ 200 then
          { result := .errStatus status, finalWritten := false,
            tempLeft := false }
        else
          match stream with
          | .finished =>
              { result := .ok, finalWritten := true, tempLeft := false }
          | .errored msg =>
              { result := .errStream msg, finalWritten := false,
                tempLeft := false }
          | .abortedTimeout =>
              { result := .errTimeout, finalWritten := false,
                tempLeft := true }
          | .abortedNet msg =>
              { result := .errNet msg, finalWritten := false,
                tempLeft := true }
  termination_by 6 - redirectCount
  decreasing_by omega

/-- `downloadFile(url, destPath)` (usage_example.js:359-440): starts the
redirect-following download at `redirectCount = 0`. -/
def downloadFile (fetch : Nat → FetchStep) : DlOutcome :=
  downloadWithRedirects fetch 0

/-- The temp path `downloadFile` streams to: `destPath + '.download'`
(usage_example.js:394). -/
def tempPathOf (destPath : String) : String :=
  destPath ++ ".download"

/-- A concrete server behaviour used to exercise the download theorems:
one redirect, then a 200 whose stream completes. -/
def sampleFetch : Nat → FetchStep
  | 0 => .redirect "https://mirror.example/validator_cli.jar"
  | _ => .response 200 .finished

/-! ## Process supervisor: runtime state, `cleanup`, `stop`, exit handler
(usage_example.js:517-599, 606-621, 967-993, 999-1004) -/

/-- The mutable runtime fields of a `FhirValidator` instance:
`this.process` (here: whether the handle is non-null, and whether
`kill()` has been sent, mirroring `ChildProcess.killed`), `this.port`,
`this.baseUrl`, `this.isReady`, plus a history flag recording that a
health probe has succeeded since the last spawn (set exactly when
`waitForReady` observes `healthCheck` resolve, usage_example.js:611-612). -/
structure VState where
  processSet : Bool
  processKilled : Bool
  port : Option Nat
  baseUrl : Option String
  isReady : Bool
  probeSucceeded : Bool
  deriving Repr, DecidableEq

/-- The state of a freshly constructed instance
(usage_example.js:216-219). -/
def initialState : VState :=
  { processSet := false, processKilled := false, port := none,
    baseUrl := none, isReady := false, probeSucceeded := false }

/-- `cleanup()` (usage_example.js:999-1004): nulls the process handle,
port and base URL and clears `isReady`; with the handle gone, no probe
success pertains to a live process any more. -/
def cleanup (_s : VState) : VState :=
  { processSet := false, processKilled := false, port := none,
    baseUrl := none, isReady := false, probeSucceeded := false }

/-- One atomic event-loop turn that mutates the runtime state, each taken
from the source:
* `spawnProcess`: the body of `start` up to `spawn` — guarded by the
  already-running check (usage_example.js:518-520), sets `port`,
  `baseUrl` and the process handle (usage_example.js:544-566);
* `readySuccess`: `waitForReady` observes `healthCheck` resolve against
  the live spawned server and sets `isReady = true`
  (usage_example.js:610-613);
* `processExit`: the `exit` handler, which calls `cleanup`
  (usage_example.js:574-577);
* `stopNoProcess`: `stop()` with a null handle — resolves, no mutation
  (usage_example.js:968-970);
* `stopKillExit`: `stop()` with a live handle, exit arrives within the
  bound: `kill('SIGKILL')`, then `onExit` runs `cleanup`
  (usage_example.js:982-992);
* `stopKillTimeout`: `stop()` with a live handle, exit never arrives:
  `kill('SIGKILL')`, then the 10 s timer fires, optionally re-kills, runs
  `cleanup` (usage_example.js:973-980). -/
inductive Step : VState → VState → Prop where
  | spawnProcess (s : VState) (p : Nat) (url : String) :
      s.processSet = false →
      Step s { s with processSet := true, processKilled := false,
                      port := some p, baseUrl := some url }
  | readySuccess (s : VState) :
      s.processSet = true →
      Step s { s with isReady := true, probeSucceeded := true }
  | processExit (s : VState) :
      s.processSet = true →
      Step s (cleanup s)
  | stopNoProcess (s : VState) :
      s.processSet = false →
      Step s s
  | stopKillExit (s : VState) :
      s.processSet = true →
      Step s (cleanup s)
  | stopKillTimeout (s : VState) :
      s.processSet = true →
      Step s (cleanup s)

/-- States reachable from the freshly constructed instance by any
sequence of the events above. -/
inductive Reachable : VState → Prop where
  | init : Reachable initialState
  | step {s t : VState} : Reachable s → Step s t → Reachable t

/-- The runtime state right after `start` has assigned port, base URL and
process handle (usage_example.js:544-566), before readiness: a concrete
state used to exercise the theorems below. -/
def runningState : VState :=
  { processSet := true, processKilled := false, port := some 8080,
    baseUrl := some "http://localhost:8080", isReady := false,
    probeSucceeded := false }

/-- What one `stop()` call does (usage_example.js:967-993), as a function
of the current state and of whether the process's `exit` event arrives
within the 10-second bound. It returns how the promise settles
(`Except.error` would be a rejection — `stop` has none), the state when it
resolves, and the signals sent in order. On the timeout path the fallback
`kill('SIGKILL')` is guarded by `this.process && !this.process.killed`
(usage_example.js:975-977). -/
def stop (s : VState) (exitWithinBound : Bool) :
    Except String (VState × List String) :=
  if s.processSet = false then
    .ok (s, [])
  else
    let afterKill := { s with processKilled := true }
    if exitWithinBound then
      .ok (cleanup afterKill, ["SIGKILL"])
    else
      if afterKill.processSet && !afterKill.processKilled then
        .ok (cleanup afterKill, ["SIGKILL", "SIGKILL"])
      else
        .ok (cleanup afterKill, ["SIGKILL"])

/-! ## Validation client: `validate` and wrappers
(usage_example.js:657-778) -/

/-- A value passed as the `resource` argument, by its JavaScript type as
the `validate` dispatch chain sees it: a string, a `Buffer` (carried here
as its UTF-8 decoding, which is all `validate` inspects), a non-null
non-Buffer object (carried as its `JSON.stringify` image), the value
`null` (for which `typeof` is `'object'`), or anything else (number,
boolean, undefined, ...). -/
inductive ResourceInput where
  | str (s : String)
  | buf (content : String)
  | obj (stringified : String)
  | nullVal
  | other
  deriving Repr, DecidableEq

/-- `Buffer.isBuffer(resource)` (usage_example.js:673, 759). -/
def isBuffer : ResourceInput → Bool
  | .buf _ => true
  | _ => false

/-- `typeof resource === 'object'` (usage_example.js:680, 773); note
`typeof null === 'object'` and a `Buffer` is an object. -/
def typeofIsObject : ResourceInput → Bool
  | .obj _ => true
  | .buf _ => true
  | .nullVal => true
  | _ => false

/-- The `options` argument of `validate` (usage_example.js:649-654). -/
structure ValidationOptions where
  profiles : Option (List String) := none
  resourceIdRule : Option String := none
  anyExtensionsAllowed : Option Bool := none
  bpWarnings : Option String := none
  displayOption : Option String := none
  deriving Repr, DecidableEq

/-- The query-parameter list `validate` builds (usage_example.js:688-704),
in `set` order: `profiles` joined with `,` when non-empty, truthy
`resourceIdRule`, `anyExtensionsAllowed` whenever not `undefined`
(rendered textually), truthy `bpWarnings`, truthy `displayOption`. -/
def buildValidateQuery (o : ValidationOptions) : List (String × String) :=
  (match o.profiles with
   | some ps => if ps.length > 0 then
       [("profiles", String.intercalate "," ps)] else []
   | none => []) ++
  (match o.resourceIdRule with
   | some r => if r == "" then [] else [("resourceIdRule", r)]
   | none => []) ++
  (match o.anyExtensionsAllowed with
   | some b => [("anyExtensionsAllowed", if b then "true" else "false")]
   | none => []) ++
  (match o.bpWarnings with
   | some w => if w == "" then [] else [("bpWarnings", w)]
   | none => []) ++
  (match o.displayOption with
   | some d => if d == "" then [] else [("displayOption", d)]
   | none => [])

/-- The media type constants used by `validate` (usage_example.js:664-682). -/
def fhirJson : String := "application/fhir+json"

/-- XML media type (usage_example.js:670, 678). -/
def fhirXml : String := "application/fhir+xml"

/-- The HTTP POST `validate` would issue: content type, body bytes
(as their UTF-8 text) and query parameters. -/
structure PreparedRequest where
  contentType : String
  body : String
  query : List (String × String)
  deriving Repr, DecidableEq

/-- `validate(resource, options)` (usage_example.js:657-748) up to the
point where the HTTP request is written: the readiness guard, the
byte/content-type normalization chain (string sniffed by
`trim().startsWith('<')`, Buffer sniffed on its decoded content, object
serialized as JSON — `null` falls into the object branch and serializes
to `"null"`), and the query construction. `.error` is a thrown error
(rejected promise); `.ok` carries the request that would be issued. -/
def validate (isReady : Bool) (resource : ResourceInput)
    (options : ValidationOptions) : Except String PreparedRequest :=
  if !isReady then
    .error "Validator service is not ready"
  else
    match resource with
    | .str s =>
        .ok { contentType := if s.trim.startsWith "<" then fhirXml
                             else fhirJson
              body := s
              query := buildValidateQuery options }
    | .buf c =>
        .ok { contentType := if c.trim.startsWith "<" then fhirXml
                             else fhirJson
              body := c
              query := buildValidateQuery options }
    | .obj j =>
        .ok { contentType := fhirJson
              body := j
              query := buildValidateQuery options }
    | .nullVal =>
        .ok { contentType := fhirJson
              body := "null"
              query := buildValidateQuery options }
    | .other =>
        .error "Resource must be a string, Buffer, or object"

/-- `validateBytes(resourceBytes, format, options)`
(usage_example.js:758-764): asserts `Buffer.isBuffer` first, then
delegates to `validate(resourceBytes, options)` — the `format` argument
is accepted but never used. -/
def validateBytes (isReady : Bool) (resourceBytes : ResourceInput)
    (_format : String) (options : ValidationOptions) :
    Except String PreparedRequest :=
  if !(isBuffer resourceBytes) then
    .error "resourceBytes must be a Buffer"
  else
    validate isReady resourceBytes options

/-- `validateObject(resourceObject, options)` (usage_example.js:772-778):
asserts `typeof resourceObject === 'object' && resourceObject !== null`
first, then delegates to `validate`. -/
def validateObject (isReady : Bool) (resourceObject : ResourceInput)
    (options : ValidationOptions) : Except String PreparedRequest :=
  if !(typeofIsObject resourceObject) || resourceObject == .nullVal then
    .error "resourceObject must be an object"
  else
    validate isReady resourceObject options

/-- `loadIG(packageId, version)` (usage_example.js:786-835) up to issuing
the POST: the readiness guard, then both identifiers set as query
parameters unconditionally. -/
def loadIG (isReady : Bool) (packageId version : String) :
    Except String (List (String × String)) :=
  if !isReady then
    .error "Validator service is not ready"
  else
    .ok [("packageId", packageId), ("version", version)]

/-! ## Validation client: `runTxTest` (usage_example.js:848-961) -/

/-- The `params` argument of `runTxTest` (usage_example.js:839-853);
fields may be absent (`undefined`). -/
structure TxParams where
  server : Option String := none
  suiteName : Option String := none
  testName : Option String := none
  version : Option String := none
  externalFile : Option String := none
  modes : Option String := none
  deriving Repr, DecidableEq

/-- Plumbing: the string value of a field already known to be truthy. -/
def orEmpty : Option String → String
  | none => ""
  | some s => s

/-- `runTxTest(params)` (usage_example.js:848-873) up to issuing the GET:
the readiness guard, the required-parameter guard (JavaScript truthiness:
absent or empty strings fail it), then the query parameters —
`server`/`suite`/`test`/`version` always, `externalFile` and `modes`
only when truthy. -/
def runTxTest (isReady : Bool) (p : TxParams) :
    Except String (List (String × String)) :=
  if !isReady then
    .error "Validator service is not ready"
  else if jsFalsyStr p.server || jsFalsyStr p.suiteName
      || jsFalsyStr p.testName || jsFalsyStr p.version then
    .error "server, suiteName, testName, and version are required"
  else
    .ok ([("server", orEmpty p.server), ("suite", orEmpty p.suiteName),
          ("test", orEmpty p.testName), ("version", orEmpty p.version)] ++
         (if !(jsFalsyStr p.externalFile) then
            [("externalFile", orEmpty p.externalFile)] else []) ++
         (if !(jsFalsyStr p.modes) then
            [("modes", orEmpty p.modes)] else []))

/-- One entry of an OperationOutcome's `issue` array, as the classifier
reads it: its `severity`, `details?.text` and `diagnostics`. -/
structure TxIssue where
  severity : String
  detailsText : Option String := none
  diagnostics : Option String := none
  deriving Repr, DecidableEq

/-- The response body after `JSON.parse` — either the parse (or any of the
subsequent property accesses inside the same `try`) threw, or it yielded
a value with an optional `resourceType` string and an optional
`issue` array. -/
inductive TxBody where
  | parseFailure (msg : String)
  | parsed (resourceType : Option String) (issue : Option (List TxIssue))
  deriving Repr, DecidableEq

/-- How the GET issued by `runTxTest` terminates: a request `error` event,
the 60 s timeout, or a complete response with a status code, the raw body
text, and its parse. -/
inductive TxEvent where
  | reqError (msg : String)
  | reqTimeout
  | response (status : Nat) (raw : String) (body : TxBody)
  deriving Repr, DecidableEq

/-- The value `runTxTest` resolves with. -/
structure TxResult where
  result : Bool
  message : Option String := none
  deriving Repr, DecidableEq

/-- The response/error handling of `runTxTest` (usage_example.js:887-960):
every branch calls `resolve` (the promise executor never calls a reject),
classifying: transport error, timeout, HTTP status ≥ 400, unparseable
body, non-OperationOutcome `resourceType`, missing/empty `issue` array,
first error-severity issue (its `details?.text || diagnostics ||
'Test failed with error'`), or only non-error issues. -/
def runTxTestClassify : TxEvent → TxResult
  | .reqError msg =>
      { result := false, message := some ("Request failed: " ++ msg) }
  | .reqTimeout =>
      { result := false, message := some "Request timeout" }
  | .response status raw body =>
      if status ≥ 400 then
        { result := false
          message := some ("HTTP error " ++ toString status ++ ": " ++ raw) }
      else
        match body with
        | .parseFailure msg =>
            { result := false
              message := some ("Failed to parse response: " ++ msg) }
        | .parsed resourceType issue =>
            if resourceType ≠ some "OperationOutcome" then
              { result := false
                message := some ("Unexpected response type: "
                  ++ jsOrStr resourceType "unknown") }
            else
              match issue with
              | none => { result := true, message := none }
              | some issues =>
                  if issues.length = 0 then
                    { result := true, message := none }
                  else
                    match issues.find? (fun i => i.severity == "error") with
                    | some errorIssue =>
                        { result := false
                          message := some (jsOrStr errorIssue.detailsText
                            (jsOrStr errorIssue.diagnostics
                              "Test failed with error")) }
                    | none => { result := true, message := none }

/-! ## Theorems -/

/-- Claim C6: for every input, valid or not, calling `validate`, `loadIG`
or `runTxTest` while `isReady` is false rejects with the
'Validator service is not ready' error — before any input validation,
parameter check, or HTTP request (the rejection is produced for every
input uniformly, and no request value is ever built). -/
theorem notReady_rejects_all (resource : ResourceInput)
    (options : ValidationOptions) (packageId version : String)
    (p : TxParams) :
    validate false resource options =
      .error "Validator service is not ready"
    ∧ loadIG false packageId version =
      .error "Validator service is not ready"
    ∧ runTxTest false p =
      .error "Validator service is not ready" := by
  refine ⟨?_, rfl, rfl⟩
  cases resource <;> rfl

/-- Claim C7: `getInstalledVersion` never throws — every exception of the
`try` body is caught and turned into `null` — and a missing, unreadable,
or unparsable sidecar file yields `null`. -/
theorem getInstalledVersion_total (f : SidecarFile) (msg : String) :
    (getInstalledVersionTry f = .error msg →
      getInstalledVersion f = .nullVal)
    ∧ getInstalledVersion .missing = .nullVal
    ∧ getInstalledVersion (.readError msg) = .nullVal
    ∧ getInstalledVersion (.parseError msg) = .nullVal := by
  refine ⟨fun h => ?_, rfl, rfl, rfl⟩
  simp [getInstalledVersion, h]

/-- Witness for `getInstalledVersion_total`: the implication discharged on
a concrete parse failure. -/
theorem getInstalledVersion_total_witness :
    getInstalledVersion (.parseError "Unexpected token") = .nullVal :=
  (getInstalledVersion_total (.parseError "Unexpected token")
    "Unexpected token").1 rfl

/-- Claim C8: `validate` normalizes its input to bytes and picks the
content type by sniffing: a string or Buffer whose trimmed text starts
with `<` is sent as `application/fhir+xml`, any other string or Buffer as
`application/fhir+json`, and a structured (non-Buffer) object is always
JSON-serialized and sent as `application/fhir+json`. -/
theorem validate_content_sniffing (options : ValidationOptions)
    (s c j : String) :
    validate true (.str s) options =
      .ok { contentType := if s.trim.startsWith "<" then fhirXml
                           else fhirJson,
            body := s, query := buildValidateQuery options }
    ∧ validate true (.buf c) options =
      .ok { contentType := if c.trim.startsWith "<" then fhirXml
                           else fhirJson,
            body := c, query := buildValidateQuery options }
    ∧ validate true (.obj j) options =
      .ok { contentType := fhirJson, body := j,
            query := buildValidateQuery options } :=
  ⟨rfl, rfl, rfl⟩

/-- Claim C9: `validateBytes` ignores its `format` argument entirely: for
every input, every pair of format values, and every options value, the two
calls produce identical outcomes (same rejection or same prepared
request), because `format` is never forwarded to `validate`. -/
theorem validateBytes_ignores_format (isReady : Bool)
    (b : ResourceInput) (f1 f2 : String) (options : ValidationOptions) :
    validateBytes isReady b f1 options = validateBytes isReady b f2 options :=
  rfl

/-- Claim C10: the input-type assertions of the convenience wrappers run
before the readiness check: in every service state (including not-ready),
`validateBytes` on a non-Buffer rejects with the Buffer type error and
`validateObject` on `null` or a non-object rejects with the object type
error — not with the not-ready error — and no request is built. -/
theorem wrapper_type_checks_first (isReady : Bool) (format : String)
    (options : ValidationOptions) (r : ResourceInput) :
    (isBuffer r = false →
      validateBytes isReady r format options =
        .error "resourceBytes must be a Buffer")
    ∧ (typeofIsObject r = false ∨ r = .nullVal →
      validateObject isReady r options =
        .error "resourceObject must be an object") := by
  constructor
  · intro h
    simp [validateBytes, h]
  · rintro (h | h)
    · simp [validateObject, h]
    · subst h
      rfl

/-- Witness for `wrapper_type_checks_first`: both type errors observed on
a not-ready instance, at a string input and at `null`. -/
theorem wrapper_type_checks_first_witness :
    validateBytes false (.str "hi") "json" {} =
      .error "resourceBytes must be a Buffer"
    ∧ validateObject false .nullVal {} =
      .error "resourceObject must be an object" :=
  ⟨(wrapper_type_checks_first false "json" {} (.str "hi")).1 rfl,
   (wrapper_type_checks_first false "json" {} .nullVal).2 (Or.inr rfl)⟩

/-- Claim C5: `stop()` never rejects; with no process handle it resolves
immediately leaving the state unchanged; with a live process it sends an
unconditional `SIGKILL` immediately (no graceful signal first) and — both
when the exit event arrives within the 10 s bound and when the fallback
timer fires instead — resolves with the runtime state cleared by
`cleanup`. -/
theorem stop_never_rejects (s : VState) (e : Bool) :
    (∃ out, stop s e = .ok out)
    ∧ (s.processSet = false → stop s e = .ok (s, []))
    ∧ (s.processSet = true →
        stop s e = .ok (cleanup s, ["SIGKILL"])
        ∧ (cleanup s).processSet = false ∧ (cleanup s).port = none
        ∧ (cleanup s).baseUrl = none ∧ (cleanup s).isReady = false) := by
  by_cases hp : s.processSet = false
  · refine ⟨⟨(s, []), ?_⟩, fun _ => ?_, fun h => absurd h (by simp [hp])⟩
      <;> simp [stop, hp]
  · have hp' : s.processSet = true := by
      revert hp; cases s.processSet <;> simp
    refine ⟨⟨(cleanup s, ["SIGKILL"]), ?_⟩, fun h => absurd h hp,
      fun _ => ⟨?_, rfl, rfl, rfl, rfl⟩⟩
      <;> cases e <;> simp [stop, hp', cleanup]

/-- Witness for `stop_never_rejects`: a never-started instance resolves
unchanged, and an instance with a live handle whose exit event never
arrives still resolves with the state cleared after one `SIGKILL`. -/
theorem stop_never_rejects_witness :
    stop initialState true = .ok (initialState, [])
    ∧ stop runningState false = .ok (cleanup runningState, ["SIGKILL"]) :=
  ⟨(stop_never_rejects initialState true).2.1 rfl,
   ((stop_never_rejects runningState false).2.2 rfl).1⟩

/-- Claim C2: in every state reachable from a fresh instance by the
spawn / ready / exit / stop events of the source, `isReady` is true only
while the process handle is non-null and a health probe has succeeded;
moreover `cleanup` — invoked from the exit handler and from both `stop`
paths — clears the process handle, port, base URL and `isReady`
together. -/
theorem isReady_invariant :
    (∀ s, Reachable s → s.isReady = true →
      s.processSet = true ∧ s.probeSucceeded = true)
    ∧ (∀ s, cleanup s = initialState) := by
  constructor
  · intro s hs
    induction hs with
    | init => intro h; exact absurd h (by simp [initialState])
    | step hr hstep ih =>
        cases hstep with
        | spawnProcess p url hproc =>
            intro h
            exact ⟨rfl, (ih h).2⟩
        | readySuccess hproc =>
            intro _
            exact ⟨hproc, rfl⟩
        | processExit hproc =>
            intro h
            exact absurd h (by simp [cleanup])
        | stopNoProcess hproc => exact ih
        | stopKillExit hproc =>
            intro h
            exact absurd h (by simp [cleanup])
        | stopKillTimeout hproc =>
            intro h
            exact absurd h (by simp [cleanup])
  · intro s
    rfl

/-- Witness for `isReady_invariant`: the invariant applied to the
concrete ready state reached by spawn followed by a successful probe. -/
theorem isReady_invariant_witness :
    ({ runningState with isReady := true, probeSucceeded := true } : VState).processSet = true
    ∧ ({ runningState with isReady := true, probeSucceeded := true } : VState).probeSucceeded = true :=
  isReady_invariant.1 _
    (Reachable.step
      (Reachable.step Reachable.init
        (Step.spawnProcess initialState 8080 "http://localhost:8080" rfl))
      (Step.readySuccess _ rfl))
    rfl

/-- Counterexample for claim C1 as stated: a sidecar file that parses as
JSON but has no `version` key makes `getInstalledVersion()` return
`undefined` (usage_example.js:331); `undefined !== null` holds in
JavaScript (usage_example.js:499), so the download path reports
`updated: true` although no prior installed version existed — the claimed
"updated true iff a prior installed version existed and differed" is
false here. -/
theorem ensureValidator_updated_counterexample :
    (ensureValidator false false true (.parsed ⟨none⟩) ⟨"2.0", "u"⟩).updated
      = true
    ∧ (getInstalledVersion (.parsed ⟨none⟩)).isStr = false :=
  ⟨rfl, rfl⟩

/-- Claim C1 (amended): `ensureValidator` decision policy. When the JAR
exists, `skipUpdateCheck` is set and `force` is not, it resolves with
`{downloaded: false, updated: false}` and the installed version (or
`"unknown"` when no sidecar version is readable) without querying the
remote release index. Otherwise it queries the latest release and
downloads exactly when `force` is set, the JAR is missing, no installed
version is recorded (JavaScript-truthy), or the installed version differs
(plain string inequality) from the latest tag; a download persists a new
version record and reports `downloaded: true` with `updated` true iff the
prior installed-version value was not `null` — the sidecar was present
and parsed, even if its `version` key was absent — and differed (strict
inequality) from the latest tag; no download reports
`{downloaded: false, updated: false}` with the installed version. -/
theorem ensureValidator_policy (force skip jarExists : Bool)
    (sidecar : SidecarFile) (latest : Release) :
    (jarExists = true ∧ skip = true ∧ force = false →
      ensureValidator force skip jarExists sidecar latest =
        { version := .str (jsOr (getInstalledVersion sidecar) "unknown"),
          updated := false, downloaded := false,
          queriedRemote := false, savedRecord := none })
    ∧ (¬(jarExists = true ∧ skip = true ∧ force = false) →
        (ensureValidator force skip jarExists sidecar latest).queriedRemote
          = true
        ∧ ((ensureValidator force skip jarExists sidecar latest).downloaded
              = true ↔
            (force = true ∨ jarExists = false
              ∨ jsFalsy (getInstalledVersion sidecar) = true
              ∨ strictNeqJs (getInstalledVersion sidecar) latest.version
                  = true))
        ∧ ((force = true ∨ jarExists = false
              ∨ jsFalsy (getInstalledVersion sidecar) = true
              ∨ strictNeqJs (getInstalledVersion sidecar) latest.version
                  = true) →
            (ensureValidator force skip jarExists sidecar latest).downloaded
              = true
            ∧ (ensureValidator force skip jarExists sidecar latest).savedRecord
              = some (latest.version, latest.downloadUrl)
            ∧ (ensureValidator force skip jarExists sidecar latest).version
              = .str latest.version
            ∧ ((ensureValidator force skip jarExists sidecar latest).updated
                  = true ↔
                (strictNeqNull (getInstalledVersion sidecar) = true
                  ∧ strictNeqJs (getInstalledVersion sidecar) latest.version
                      = true)))
        ∧ (¬(force = true ∨ jarExists = false
              ∨ jsFalsy (getInstalledVersion sidecar) = true
              ∨ strictNeqJs (getInstalledVersion sidecar) latest.version
                  = true) →
            ensureValidator force skip jarExists sidecar latest =
              { version := getInstalledVersion sidecar, updated := false,
                downloaded := false, queriedRemote := true,
                savedRecord := none })) := by
  simp only [ensureValidator]
  generalize getInstalledVersion sidecar = iv
  cases force <;> cases skip <;> cases jarExists <;>
    by_cases h1 : jsFalsy iv = true <;>
    by_cases h2 : strictNeqJs iv latest.version = true <;>
    simp_all [Bool.and_eq_true]

/-- Witness for `ensureValidator_policy`: with the JAR present, no skip
flag, installed version `"1.0"` and latest tag `"2.0"`, the call
downloads, persists the new record, and reports an update. -/
theorem ensureValidator_policy_witness :
    (ensureValidator false false true
      (.parsed ⟨some "1.0"⟩) ⟨"2.0", "u"⟩).downloaded = true
    ∧ (ensureValidator false false true
      (.parsed ⟨some "1.0"⟩) ⟨"2.0", "u"⟩).savedRecord = some ("2.0", "u")
    ∧ (ensureValidator false false true
      (.parsed ⟨some "1.0"⟩) ⟨"2.0", "u"⟩).updated = true := by
  have h := ((ensureValidator_policy false false true
      (.parsed ⟨some "1.0"⟩) ⟨"2.0", "u"⟩).2 (by simp)).2.2.1
    (Or.inr (Or.inr (Or.inr (by decide))))
  exact ⟨h.1, h.2.1, h.2.2.2.mpr ⟨by decide, by decide⟩⟩

/-- Claim C3: past its readiness and required-parameter checks,
`runTxTest` never rejects — `runTxTestClassify` covers every terminal
event of the request with a resolved value: transport errors and the
timeout resolve to `{result: false, message}`; an HTTP status ≥ 400
resolves to `{result: false, message: 'HTTP error <status>: <body>'}`;
a parseable body that is not an OperationOutcome resolves to
`{result: false}` with an 'Unexpected response type' message; an outcome
with no issues resolves to `{result: true}`; an outcome whose first
error-severity issue is `e` resolves to `{result: false}` with `e`'s
details text or diagnostics; an outcome with only non-error issues
resolves to `{result: true}`. -/
theorem runTxTest_classification
    (msg raw : String) (status : Nat) (body : TxBody)
    (rt : Option String) (issue : Option (List TxIssue))
    (issues pre post : List TxIssue) (e : TxIssue) :
    (runTxTestClassify (.reqError msg) =
      { result := false, message := some ("Request failed: " ++ msg) })
    ∧ (runTxTestClassify .reqTimeout =
      { result := false, message := some "Request timeout" })
    ∧ (400 ≤ status → runTxTestClassify (.response status raw body) =
      { result := false,
        message := some ("HTTP error " ++ toString status ++ ": " ++ raw) })
    ∧ (status < 400 →
      runTxTestClassify (.response status raw (.parseFailure msg)) =
        { result := false,
          message := some ("Failed to parse response: " ++ msg) })
    ∧ (status < 400 → rt ≠ some "OperationOutcome" →
      runTxTestClassify (.response status raw (.parsed rt issue)) =
        { result := false,
          message := some ("Unexpected response type: "
            ++ jsOrStr rt "unknown") })
    ∧ (status < 400 →
      runTxTestClassify (.response status raw
          (.parsed (some "OperationOutcome") none)) =
        { result := true, message := none })
    ∧ (status < 400 →
      runTxTestClassify (.response status raw
          (.parsed (some "OperationOutcome") (some []))) =
        { result := true, message := none })
    ∧ (status < 400 → (∀ i ∈ pre, i.severity ≠ "error") →
        e.severity = "error" →
      runTxTestClassify (.response status raw
          (.parsed (some "OperationOutcome") (some (pre ++ e :: post)))) =
        { result := false,
          message := some (jsOrStr e.detailsText
            (jsOrStr e.diagnostics "Test failed with error")) })
    ∧ (status < 400 → (∀ i ∈ issues, i.severity ≠ "error") →
      runTxTestClassify (.response status raw
          (.parsed (some "OperationOutcome") (some issues))) =
        { result := true, message := none }) := by
  refine ⟨rfl, rfl, fun h => ?_, fun h => ?_, fun h hrt => ?_, fun h => ?_,
    fun h => ?_, fun h hpre he => ?_, fun h hne => ?_⟩
  · simp only [runTxTestClassify]
    rw [if_pos h]
  · simp only [runTxTestClassify]
    rw [if_neg (by omega : ¬ 400 ≤ status)]
  · simp only [runTxTestClassify]
    rw [if_neg (by omega : ¬ 400 ≤ status)]
    rw [if_pos hrt]
  · simp only [runTxTestClassify]
    rw [if_neg (by omega : ¬ 400 ≤ status)]
    simp
  · simp only [runTxTestClassify]
    rw [if_neg (by omega : ¬ 400 ≤ status)]
    simp
  · simp only [runTxTestClassify]
    rw [if_neg (by omega : ¬ 400 ≤ status)]
    rw [if_neg (by simp : ¬ (some "OperationOutcome" ≠ some "OperationOutcome"))]
    rw [if_neg (by simp : ¬ ((pre ++ e :: post).length = 0))]
    rw [List.find?_append,
      List.find?_eq_none.mpr (fun i hi => by simpa using hpre i hi),
      List.find?_cons_of_pos _ (by simp [he])]
    simp
  · simp only [runTxTestClassify]
    rw [if_neg (by omega : ¬ 400 ≤ status)]
    rw [if_neg (by simp : ¬ (some "OperationOutcome" ≠ some "OperationOutcome"))]
    by_cases hlen : issues.length = 0
    · rw [if_pos hlen]
    · rw [if_neg hlen]
      rw [List.find?_eq_none.mpr (fun i hi => by simpa using hne i hi)]

/-- Witness for `runTxTest_classification`: an OperationOutcome whose
issues are one warning followed by one error with diagnostics resolves to
`{result: false}` carrying the error's diagnostics. -/
theorem runTxTest_classification_witness :
    runTxTestClassify (.response 200 "body"
        (.parsed (some "OperationOutcome")
          (some [{ severity := "warning" },
                 { severity := "error", diagnostics := some "bad code" }]))) =
      { result := false, message := some "bad code" } := by
  have h := (runTxTest_classification "m" "body" 200
      (.parseFailure "m") none none []
      [{ severity := "warning" }] []
      { severity := "error", diagnostics := some "bad code" }).2.2.2.2.2.2.2.1
    (by omega) (by intro i hi; simp at hi; subst hi; decide) rfl
  simpa using h

/-- Helper for the download claim: while the first `k` answers are
redirects (`k ≤ 6`), the download is just the download restarted at
redirect count `k`. -/
theorem downloadWithRedirects_skip (fetch : Nat → FetchStep) :
    ∀ k, k ≤ 6 → (∀ n, n < k → ∃ loc, fetch n = .redirect loc) →
      downloadWithRedirects fetch 0 = downloadWithRedirects fetch k := by
  intro k
  induction k with
  | zero => intro _ _; rfl
  | succ m ih =>
      intro hk hred
      rw [ih (by omega) (fun n hn => hred n (by omega))]
      obtain ⟨loc, hl⟩ := hred m (by omega)
      rw [downloadWithRedirects]
      rw [if_neg (by omega : ¬ m > 5), hl]

/-- Helper for the download claim: in every outcome of
`downloadWithRedirects`, a file sits at the destination path iff the
promise resolved — the rename to the final path happens only after the
stream completes, on every path including the mid-body aborts. -/
theorem downloadWithRedirects_fs_inv (fetch : Nat → FetchStep) :
    ∀ fuel n, 6 - n ≤ fuel →
      ((downloadWithRedirects fetch n).finalWritten = true ↔
        (downloadWithRedirects fetch n).result = .ok) := by
  intro fuel
  induction fuel with
  | zero =>
      intro n hn
      rw [downloadWithRedirects]
      rw [if_pos (by omega : n > 5)]
      simp
  | succ f ihf =>
      intro n hn
      rw [downloadWithRedirects]
      by_cases h5 : n > 5
      · rw [if_pos h5]
        simp
      · rw [if_neg h5]
        cases hf : fetch n with
        | redirect loc => exact ihf (n + 1) (by omega)
        | netError m => simp
        | reqTimeout => simp
        | response status stream =>
            by_cases hs : status ≠ 200
            · simp [hs]
            · have hs' : status = 200 := by omega
              subst hs'
              cases stream <;> simp

/-- Claim C4: `downloadFile` streams the payload only to the temporary
sibling file `destPath + '.download'` and a file appears at the
destination exactly when the promise resolves — the rename happens only
after the stream completes; more than 5 followed redirects reject with
the too-many-redirects error; a non-success status (other than a followed
redirect) rejects with the download error; a write-stream error rejects
only after the temporary file has been removed; hence a failed download
never leaves a file at the final destination path. -/
theorem downloadFile_claim (fetch : Nat → FetchStep) (destPath : String)
    (k status : Nat) (stream : StreamOutcome) (msg : String) :
    (tempPathOf destPath = destPath ++ ".download")
    ∧ ((∀ n, n ≤ 5 → ∃ loc, fetch n = .redirect loc) →
        downloadFile fetch =
          { result := .errTooManyRedirects, finalWritten := false,
            tempLeft := false })
    ∧ (k ≤ 5 → (∀ n, n < k → ∃ loc, fetch n = .redirect loc) →
        fetch k = .response status stream →
        (status ≠ 200 →
          downloadFile fetch =
            { result := .errStatus status, finalWritten := false,
              tempLeft := false })
        ∧ (status = 200 → stream = .errored msg →
          downloadFile fetch =
            { result := .errStream msg, finalWritten := false,
              tempLeft := false })
        ∧ (status = 200 → stream = .finished →
          downloadFile fetch =
            { result := .ok, finalWritten := true, tempLeft := false }))
    ∧ ((downloadFile fetch).result ≠ .ok →
        (downloadFile fetch).finalWritten = false)
    ∧ ((downloadFile fetch).finalWritten = true →
        (downloadFile fetch).result = .ok) := by
  have hinv := downloadWithRedirects_fs_inv fetch 6 0 (by omega)
  refine ⟨rfl, fun hred => ?_, fun hk hred hf => ⟨fun hs => ?_,
      fun hs he => ?_, fun hs hfin => ?_⟩, fun hne => ?_, fun hw => ?_⟩
  · rw [downloadFile,
      downloadWithRedirects_skip fetch 6 (by omega)
        (fun n hn => hred n (by omega))]
    rw [downloadWithRedirects]
    rw [if_pos (by omega : 6 > 5)]
  · rw [downloadFile,
      downloadWithRedirects_skip fetch k (by omega) hred]
    rw [downloadWithRedirects]
    rw [if_neg (by omega : ¬ k > 5), hf]
    simp [hs]
  · subst hs he
    rw [downloadFile,
      downloadWithRedirects_skip fetch k (by omega) hred]
    rw [downloadWithRedirects]
    rw [if_neg (by omega : ¬ k > 5), hf]
    simp
  · subst hs hfin
    rw [downloadFile,
      downloadWithRedirects_skip fetch k (by omega) hred]
    rw [downloadWithRedirects]
    rw [if_neg (by omega : ¬ k > 5), hf]
    simp
  · rcases hb : (downloadFile fetch).finalWritten with _ | _
    · rfl
    · exact absurd (hinv.mp hb) hne
  · exact hinv.mp hw

/-- The mid-body abort path made explicit: a 200 response whose socket
times out while the body is still streaming rejects with the
download-timeout error and leaves the partial temporary file on disk —
`res.pipe` does not error the write stream, so the unlink handler never
runs. The destination path still receives no file. -/
theorem downloadFile_abort_leaves_temp :
    downloadFile (fun _ => .response 200 .abortedTimeout) =
      { result := .errTimeout, finalWritten := false, tempLeft := true } := by
  rw [downloadFile, downloadWithRedirects]
  rw [if_neg (by omega : ¬ 0 > 5)]
  simp

/-- Witness for `downloadFile_claim`: the concrete behaviour of one
redirect followed by a completed 200 response resolves, placing the file
at the destination and leaving no temporary file. -/
theorem downloadFile_claim_witness :
    downloadFile sampleFetch =
      { result := .ok, finalWritten := true, tempLeft := false } :=
  ((downloadFile_claim sampleFetch "validator_cli.jar" 1 200
      .finished "m").2.2.1 (by omega)
    (by intro n hn; interval_cases n; exact ⟨_, rfl⟩)
    rfl).2.2 rfl rfl

end FhirValidatorModel
